import Mathlib

/-!
# Verification of the Jira REST client (`src/index.js`)

A shallow embedding of the client library: configuration validation in the
`JiraClient` constructor, `buildURL` (which delegates to Node's legacy
`url.format` followed by `decodeURIComponent`), and `makeRequest`.

JavaScript objects are modelled as structures whose optional fields are
`Option`-valued; JavaScript truthiness of a string field (`!config.host`)
is `truthy`: absent (`none`) and the empty string are both falsy.

The module `./lib/error` only defines the distinct error message constants
referenced by `src/index.js`; it is modelled from the spec ("distinct
`ConfigurationError` variants") as an inductive type with one constructor
per constant named in `src/index.js`, since only the identity and
distinctness of the errors matter to the properties below, not their
message texts.
-/

set_option autoImplicit false

/-- Modelled from the spec: the error constants of the missing module
`./lib/error`, one distinct variant per constant referenced in
`src/index.js` ("distinct `ConfigurationError` variants"). -/
inductive ConfigError where
  | NO_HOST_ERROR
  | NO_AUTHENTICATION_ERROR
  | NO_CONSUMER_KEY_ERROR
  | NO_PRIVATE_KEY_ERROR
  | NO_OAUTH_TOKEN_ERROR
  | NO_OAUTH_TOKEN_SECRET_ERROR
  | NO_USERNAME_ERROR
  | NO_PASSWORD_ERROR
  | INVALID_AUTHENTICATION_PROPERTY_ERROR
  deriving DecidableEq, Repr

/-- JavaScript truthiness of an optional string field: `undefined` and the
empty string are falsy, every other string is truthy. -/
def truthy : Option String → Bool
  | none => false
  | some s => !s.isEmpty

/-- The `config.oauth` input object: four credential fields, plus a possible
`signature_method` supplied by the caller (the constructor overwrites it). -/
structure OAuthInput where
  consumer_key : Option String
  private_key : Option String
  token : Option String
  token_secret : Option String
  signature_method : Option String
  deriving DecidableEq, Repr

/-- The `config.basic_auth` input object. -/
structure BasicAuthInput where
  username : Option String
  password : Option String
  deriving DecidableEq, Repr

/-- The configuration record passed to the `JiraClient` constructor. -/
structure Config where
  host : Option String
  protocol : Option String
  port : Option Nat
  oauth : Option OAuthInput
  basic_auth : Option BasicAuthInput
  deriving DecidableEq, Repr

/-- The OAuth signing configuration stored on a constructed client
(`this.oauthConfig`): the validated input fields with `signature_method`
overwritten to `'RSA-SHA1'`. -/
structure OAuthStored where
  consumer_key : String
  private_key : String
  token : String
  token_secret : String
  signature_method : String
  deriving DecidableEq, Repr

/-- The basic-auth credentials stored on a constructed client
(`this.basic_auth`), with field names normalized to `user`/`pass`. -/
structure BasicAuthStored where
  user : String
  pass : String
  deriving DecidableEq, Repr

/-- The state of a constructed `JiraClient`. -/
structure JiraClient where
  host : String
  protocol : String
  port : Option Nat
  version : Nat
  oauthConfig : Option OAuthStored
  basic_auth : Option BasicAuthStored
  deriving DecidableEq, Repr

/-- The `JiraClient` constructor (`src/index.js` lines 31-76): validates the
configuration, throwing (`Except.error`) the error of the first failing
check, and otherwise returns the constructed client state. -/
def JiraClient.construct (config : Config) : Except ConfigError JiraClient :=
  if !truthy config.host then
    .error .NO_HOST_ERROR
  else
    let host := config.host.getD ""
    let protocol := if truthy config.protocol then config.protocol.getD "" else "https"
    let port := config.port
    let version := 2
    if config.oauth.isNone && config.basic_auth.isNone then
      .error .NO_AUTHENTICATION_ERROR
    else
      match config.oauth with
      | some o =>
        if !truthy o.consumer_key then
          .error .NO_CONSUMER_KEY_ERROR
        else if !truthy o.private_key then
          .error .NO_PRIVATE_KEY_ERROR
        else if !truthy o.token then
          .error .NO_OAUTH_TOKEN_ERROR
        else if !truthy o.token_secret then
          .error .NO_OAUTH_TOKEN_SECRET_ERROR
        else
          .ok { host := host, protocol := protocol, port := port, version := version,
                oauthConfig := some { consumer_key := o.consumer_key.getD "",
                                      private_key := o.private_key.getD "",
                                      token := o.token.getD "",
                                      token_secret := o.token_secret.getD "",
                                      signature_method := "RSA-SHA1" },
                basic_auth := none }
      | none =>
        match config.basic_auth with
        | some b =>
          if !truthy b.username then
            .error .NO_USERNAME_ERROR
          else if !truthy b.password then
            .error .NO_PASSWORD_ERROR
          else
            .ok { host := host, protocol := protocol, port := port, version := version,
                  oauthConfig := none,
                  basic_auth := some { user := b.username.getD "",
                                       pass := b.password.getD "" } }
        | none =>
          .error .INVALID_AUTHENTICATION_PROPERTY_ERROR

/-- One hexadecimal digit, as in the `%XX` escapes of `decodeURIComponent`. -/
def hexDigit? (c : Char) : Option Nat :=
  if '0' ≤ c ∧ c ≤ '9' then some (c.toNat - '0'.toNat)
  else if 'a' ≤ c ∧ c ≤ 'f' then some (c.toNat - 'a'.toNat + 10)
  else if 'A' ≤ c ∧ c ≤ 'F' then some (c.toNat - 'A'.toNat + 10)
  else none

/-- First pass of `decodeURIComponent`: each `%XX` escape becomes a byte
(`Sum.inr`), every other character stays literal (`Sum.inl`); a `%` not
followed by two hex digits is a `URIError` (`none`). -/
def percentTokens : List Char → Option (List (Char ⊕ Nat))
  | [] => some []
  | c :: rest =>
    if c = '%' then
      match rest with
      | a :: b :: rest2 =>
        match hexDigit? a, hexDigit? b, percentTokens rest2 with
        | some ha, some hb, some t => some (Sum.inr (16 * ha + hb) :: t)
        | _, _, _ => none
      | _ => none
    else (percentTokens rest).map (fun t => Sum.inl c :: t)

/-- Second pass of `decodeURIComponent`: maximal runs of escaped bytes are
decoded as strict UTF-8 (continuation bytes must themselves be escapes;
overlong forms, surrogates and out-of-range values are `URIError`). -/
def utf8Tokens : List (Char ⊕ Nat) → Option (List Char)
  | [] => some []
  | Sum.inl c :: rest => (utf8Tokens rest).map (fun t => c :: t)
  | Sum.inr b :: rest =>
    if b < 0x80 then (utf8Tokens rest).map (fun t => Char.ofNat b :: t)
    else if 0xC2 ≤ b ∧ b ≤ 0xDF then
      match rest with
      | Sum.inr b2 :: rest2 =>
        if 0x80 ≤ b2 ∧ b2 ≤ 0xBF then
          (utf8Tokens rest2).map (fun t => Char.ofNat ((b - 0xC0) * 64 + (b2 - 0x80)) :: t)
        else none
      | _ => none
    else if 0xE0 ≤ b ∧ b ≤ 0xEF then
      match rest with
      | Sum.inr b2 :: Sum.inr b3 :: rest2 =>
        if (if b = 0xE0 then 0xA0 else 0x80) ≤ b2 ∧ b2 ≤ (if b = 0xED then 0x9F else 0xBF) ∧
            0x80 ≤ b3 ∧ b3 ≤ 0xBF then
          (utf8Tokens rest2).map
            (fun t => Char.ofNat ((b - 0xE0) * 4096 + (b2 - 0x80) * 64 + (b3 - 0x80)) :: t)
        else none
      | _ => none
    else if 0xF0 ≤ b ∧ b ≤ 0xF4 then
      match rest with
      | Sum.inr b2 :: Sum.inr b3 :: Sum.inr b4 :: rest2 =>
        if (if b = 0xF0 then 0x90 else 0x80) ≤ b2 ∧ b2 ≤ (if b = 0xF4 then 0x8F else 0xBF) ∧
            0x80 ≤ b3 ∧ b3 ≤ 0xBF ∧ 0x80 ≤ b4 ∧ b4 ≤ 0xBF then
          (utf8Tokens rest2).map
            (fun t =>
              Char.ofNat ((b - 0xF0) * 262144 + (b2 - 0x80) * 4096 + (b3 - 0x80) * 64 +
                (b4 - 0x80)) :: t)
        else none
      | _ => none
    else none

/-- `decodeURIComponent`: percent-decodes the string, returning `none` in
place of a thrown `URIError`. -/
def decodeURIComponent (s : String) : Option String := do
  let toks ← percentTokens s.data
  let chars ← utf8Tokens toks
  pure (String.mk chars)

/-- The protocols Node's legacy `url.format` writes with `//` slashes. -/
def slashedProtocols : List String :=
  ["http:", "https:", "ftp:", "gopher:", "file:", "ws:", "wss:"]

/-- `url.format`'s `pathname.replace(/[?#]/g, encodeURIComponent)`, on the
character list: `encodeURIComponent` maps `?` to `%3F` and `#` to `%23`. -/
def escapeQH : List Char → List Char
  | [] => []
  | c :: rest =>
    (if c = '?' then ['%', '3', 'F'] else if c = '#' then ['%', '2', '3'] else [c]) ++
      escapeQH rest

/-- `url.format`'s `pathname.replace(/[?#]/g, encodeURIComponent)`. -/
def escapeQuestionHash (s : String) : String :=
  String.mk (escapeQH s.data)

/-- Node's legacy `url.format`, restricted to the fields `buildURL` passes
(`protocol`, `hostname`, `port`, `pathname`; no auth, search, query, hash or
explicit slashes): appends `:` to the protocol if missing, wraps a hostname
containing `:` in brackets, appends a truthy port, prefixes `//` and a
leading `/` on the pathname for slashed protocols with a host, and
percent-escapes `?` and `#` in the pathname. -/
def urlFormat (protocol hostname : String) (port : Option Nat) (pathname : String) : String :=
  let host : Option String :=
    if hostname.data = [] then none
    else
      let base := if ':' ∈ hostname.data then "[" ++ hostname ++ "]" else hostname
      match port with
      | some p => if p ≠ 0 then some (base ++ ":" ++ Nat.repr p) else some base
      | none => some base
  let protocol :=
    if protocol.data ≠ [] ∧ protocol.data.getLast? ≠ some ':' then protocol ++ ":"
    else protocol
  let slashed := (protocol.data = [] ∨ protocol ∈ slashedProtocols) ∧ host.isSome
  let hostStr := if slashed then "//" ++ host.getD "" else host.getD ""
  let pathname :=
    if slashed ∧ pathname.data ≠ [] ∧ pathname.data.head? ≠ some '/' then "/" ++ pathname
    else pathname
  protocol ++ hostStr ++ escapeQuestionHash pathname

/-- `buildURL` (`src/index.js` lines 80-91): formats
`protocol://host[:port]/` with pathname `'rest/api/' + version + path`
(note: no separator between the version and `path`), then percent-decodes
the whole URL; `none` models a thrown `URIError`. -/
def JiraClient.buildURL (client : JiraClient) (path : String) : Option String :=
  let apiBasePath := "rest/api/"
  let version := client.version
  let requestUrl := urlFormat client.protocol client.host client.port
    (apiBasePath ++ toString version ++ path)
  decodeURIComponent requestUrl

/-- The mutable request-options record handed to `makeRequest` and then to
the transport: only the two fields the client itself touches are modelled,
the rest passes through unchanged. -/
structure RequestOptions where
  oauth : Option OAuthStored
  auth : Option BasicAuthStored
  deriving DecidableEq, Repr

/-- The observable outcome of one `makeRequest` call, up to the point the
call returns: which error (if any) the callback was synchronously invoked
with, whether `request(options, callback)` was reached, and the options
record as passed to the transport. -/
structure MakeRequestResult where
  syncCallbackError : Option ConfigError
  dispatched : Bool
  dispatchedOptions : RequestOptions
  deriving DecidableEq, Repr

/-- Statement helper: the `[:<port>]` fragment of the produced URL shape —
empty for an absent or falsy (`0`) port, `":"` followed by the decimal
digits otherwise (mirroring `url.format`'s `if (this.port)` append). -/
def portSuffix : Option Nat → String
  | some p => if p ≠ 0 then ":" ++ Nat.repr p else ""
  | none => ""

/-- Statement helper: observes whether a construction outcome is the
`INVALID_AUTHENTICATION_PROPERTY_ERROR` thrown by the constructor's final
`else` branch. -/
def isInvalidAuthError : Except ConfigError JiraClient → Bool
  | .error .INVALID_AUTHENTICATION_PROPERTY_ERROR => true
  | _ => false

/-- `makeRequest` (`src/index.js` lines 93-102): attaches `options.oauth`
or `options.auth` from the client state; when neither auth mode is stored
it synchronously invokes the callback with `NO_AUTHENTICATION_ERROR`.
`request(options, callback)` is executed unconditionally after the
`if`/`else` chain, so `dispatched` is `true` in every branch. -/
def JiraClient.makeRequest (client : JiraClient) (options : RequestOptions) :
    MakeRequestResult :=
  match client.oauthConfig with
  | some oc =>
    { syncCallbackError := none, dispatched := true,
      dispatchedOptions := { options with oauth := some oc } }
  | none =>
    match client.basic_auth with
    | some ba =>
      { syncCallbackError := none, dispatched := true,
        dispatchedOptions := { options with auth := some ba } }
    | none =>
      { syncCallbackError := some .NO_AUTHENTICATION_ERROR, dispatched := true,
        dispatchedOptions := options }

/-! ## Shared lemmas -/

theorem truthy_none : truthy none = false := rfl

theorem truthy_some_empty : truthy (some "") = false := rfl

theorem truthy_some (s : String) : truthy (some s) = !s.isEmpty := rfl

/-! ## Claim theorems -/

/-- C1: on a Client storing neither an OAuth configuration nor basic-auth
credentials, `makeRequest` invokes the callback synchronously with
`NO_AUTHENTICATION_ERROR` — but, contrary to the claim, it still reaches
`request(options, callback)` (`dispatched = true`), so the request is
dispatched to the transport and the callback is not the only signal. -/
theorem makeRequest_no_auth_still_dispatches :
    ∀ options : RequestOptions,
      JiraClient.makeRequest
        { host := "example.com", protocol := "https", port := none, version := 2,
          oauthConfig := none, basic_auth := none } options =
      { syncCallbackError := some ConfigError.NO_AUTHENTICATION_ERROR, dispatched := true,
        dispatchedOptions := options } :=
  fun _ => rfl

/-- C4: a configuration with no `host` is rejected with the host-missing
error, whatever every other field holds. -/
theorem construct_missing_host (cfg : Config) (h : cfg.host = none) :
    JiraClient.construct cfg = .error ConfigError.NO_HOST_ERROR := by
  unfold JiraClient.construct
  rw [h]
  rfl

/-- Witness for C4 at a concrete configuration. -/
theorem construct_missing_host_witness :
    JiraClient.construct
      { host := none, protocol := some "https", port := some 8080,
        oauth := none,
        basic_auth := some { username := some "me", password := some "pw" } } =
    .error ConfigError.NO_HOST_ERROR :=
  construct_missing_host _ rfl

/-- C5: a configuration with a (truthy) host but neither an `oauth` nor a
`basic_auth` record is rejected with the no-authentication error. -/
theorem construct_no_auth_modes (cfg : Config) (hh : truthy cfg.host = true)
    (ho : cfg.oauth = none) (hb : cfg.basic_auth = none) :
    JiraClient.construct cfg = .error ConfigError.NO_AUTHENTICATION_ERROR := by
  unfold JiraClient.construct
  rw [hh, ho, hb]
  rfl

/-- Witness for C5 at a concrete configuration. -/
theorem construct_no_auth_modes_witness :
    JiraClient.construct
      { host := some "example.com", protocol := none, port := none,
        oauth := none, basic_auth := none } =
    .error ConfigError.NO_AUTHENTICATION_ERROR :=
  construct_no_auth_modes _ rfl rfl rfl

/-- C9: the constructor's final `else` branch is unreachable — no
configuration makes construction fail with
`INVALID_AUTHENTICATION_PROPERTY_ERROR`, because any configuration passing
the neither-`oauth`-nor-`basic_auth` check takes one of the two
authentication branches. -/
theorem construct_invalid_auth_unreachable :
    ∀ cfg : Config, isInvalidAuthError (JiraClient.construct cfg) = false := by
  intro cfg
  rcases cfg with ⟨host, protocol, port, oauth, basic⟩
  unfold JiraClient.construct
  dsimp only
  cases hh : truthy host
  · rfl
  · rcases oauth with _ | o
    · rcases basic with _ | b
      · rfl
      · cases hu : truthy b.username <;> cases hp : truthy b.password <;>
          simp [hu, hp, isInvalidAuthError]
    · cases h1 : truthy o.consumer_key <;> cases h2 : truthy o.private_key <;>
        cases h3 : truthy o.token <;> cases h4 : truthy o.token_secret <;>
          simp [h1, h2, h3, h4, isInvalidAuthError]

/-- C3: for a configuration with a (truthy) host whose `oauth` record has at
least one missing (falsy) credential field, construction fails with the
error of the first missing field in the fixed order consumer_key,
private_key, token, token_secret — no later missing field is reported —
and the four per-field errors are pairwise distinct. -/
theorem construct_oauth_first_missing_field :
    List.Pairwise (· ≠ ·)
      [ConfigError.NO_CONSUMER_KEY_ERROR, ConfigError.NO_PRIVATE_KEY_ERROR,
       ConfigError.NO_OAUTH_TOKEN_ERROR, ConfigError.NO_OAUTH_TOKEN_SECRET_ERROR] ∧
    ∀ (cfg : Config) (o : OAuthInput), truthy cfg.host = true → cfg.oauth = some o →
      (truthy o.consumer_key = false ∨ truthy o.private_key = false ∨
        truthy o.token = false ∨ truthy o.token_secret = false) →
      JiraClient.construct cfg = .error
        (if truthy o.consumer_key = false then ConfigError.NO_CONSUMER_KEY_ERROR
         else if truthy o.private_key = false then ConfigError.NO_PRIVATE_KEY_ERROR
         else if truthy o.token = false then ConfigError.NO_OAUTH_TOKEN_ERROR
         else ConfigError.NO_OAUTH_TOKEN_SECRET_ERROR) := by
  refine ⟨by decide, ?_⟩
  intro cfg o hh ho hmiss
  unfold JiraClient.construct
  rw [hh, ho]
  cases h1 : truthy o.consumer_key <;> cases h2 : truthy o.private_key <;>
    cases h3 : truthy o.token <;> cases h4 : truthy o.token_secret <;>
      simp_all

/-- Witness for C3: missing both consumer key and private key reports only
the consumer-key error. -/
theorem construct_oauth_first_missing_field_witness :
    JiraClient.construct
      { host := some "example.com", protocol := none, port := none,
        oauth := some { consumer_key := none, private_key := none, token := some "t",
                        token_secret := some "ts", signature_method := none },
        basic_auth := none } =
    .error ConfigError.NO_CONSUMER_KEY_ERROR := by
  simpa using
    construct_oauth_first_missing_field.2
      { host := some "example.com", protocol := none, port := none,
        oauth := some { consumer_key := none, private_key := none, token := some "t",
                        token_secret := some "ts", signature_method := none },
        basic_auth := none }
      { consumer_key := none, private_key := none, token := some "t",
        token_secret := some "ts", signature_method := none }
      (by decide) rfl (Or.inl (by decide))

/-- C6: whenever construction succeeds from a configuration carrying an
`oauth` record — whatever `signature_method` the input held — the stored
signing configuration has `signature_method = "RSA-SHA1"`. -/
theorem construct_oauth_signature_method (cfg : Config) (o : OAuthInput)
    (client : JiraClient) (ho : cfg.oauth = some o)
    (hok : JiraClient.construct cfg = .ok client) :
    ∃ oc : OAuthStored, client.oauthConfig = some oc ∧
      oc.signature_method = "RSA-SHA1" := by
  unfold JiraClient.construct at hok
  rw [ho] at hok
  repeat' split at hok
  all_goals simp_all
  all_goals (subst hok; exact ⟨_, rfl, rfl⟩)

/-- Witness for C6: an input `signature_method` of `"HMAC-SHA1"` is
overwritten to `"RSA-SHA1"`. -/
theorem construct_oauth_signature_method_witness :
    ∃ oc : OAuthStored,
      (JiraClient.mk "example.com" "https" none 2
        (some (OAuthStored.mk "ck" "pk" "t" "ts" "RSA-SHA1")) none).oauthConfig =
        some oc ∧ oc.signature_method = "RSA-SHA1" :=
  construct_oauth_signature_method
    { host := some "example.com", protocol := some "https", port := none,
      oauth := some { consumer_key := some "ck", private_key := some "pk",
                      token := some "t", token_secret := some "ts",
                      signature_method := some "HMAC-SHA1" },
      basic_auth := none }
    _ _ rfl rfl

set_option maxHeartbeats 1600000 in
/-- C7: a Client constructed with OAuth dispatches with `options.oauth` set
to the stored signing configuration and `options.auth` untouched; a Client
constructed with basic-auth dispatches with `options.auth` set to the
stored `\x7b user, pass \x7d` pair normalized from `username`/`password`, and
`options.oauth` untouched. -/
theorem makeRequest_auth_attachment :
    (∀ (cfg : Config) (o : OAuthInput) (client : JiraClient) (options : RequestOptions),
        JiraClient.construct cfg = .ok client → cfg.oauth = some o →
        client.oauthConfig.isSome = true ∧
        (client.makeRequest options).dispatchedOptions.oauth = client.oauthConfig ∧
        (client.makeRequest options).dispatchedOptions.auth = options.auth) ∧
    (∀ (cfg : Config) (b : BasicAuthInput) (client : JiraClient) (options : RequestOptions),
        JiraClient.construct cfg = .ok client → cfg.oauth = none → cfg.basic_auth = some b →
        ∃ u p, b.username = some u ∧ b.password = some p ∧
          client.basic_auth = some { user := u, pass := p } ∧
          (client.makeRequest options).dispatchedOptions.auth = some { user := u, pass := p } ∧
          (client.makeRequest options).dispatchedOptions.oauth = options.oauth) := by
  constructor
  · intro cfg o client options hok ho
    unfold JiraClient.construct at hok
    rw [ho] at hok
    repeat' split at hok
    all_goals (try simp_all [truthy])
    all_goals (try subst_vars)
    all_goals (try simp_all [truthy])
    all_goals (first | exact ⟨rfl, rfl, rfl⟩ | exact ⟨rfl, rfl⟩)
  · intro cfg b client options hok ho hb
    rcases b with ⟨bu, bp⟩
    unfold JiraClient.construct at hok
    rw [ho, hb] at hok
    rcases bu with _ | u <;> rcases bp with _ | p
    all_goals (repeat' split at hok)
    all_goals (try simp_all [truthy])
    all_goals (try subst_vars)
    all_goals (try simp_all [truthy])
    all_goals exact ⟨rfl, rfl⟩

/-- Witness for C7 at concrete OAuth and basic-auth clients. -/
theorem makeRequest_auth_attachment_witness :
    ((JiraClient.mk "example.com" "https" none 2
        (some (OAuthStored.mk "ck" "pk" "t" "ts" "RSA-SHA1")) none).oauthConfig.isSome = true ∧
      ((JiraClient.mk "example.com" "https" none 2
          (some (OAuthStored.mk "ck" "pk" "t" "ts" "RSA-SHA1")) none).makeRequest
          { oauth := none, auth := none }).dispatchedOptions.oauth =
        (JiraClient.mk "example.com" "https" none 2
          (some (OAuthStored.mk "ck" "pk" "t" "ts" "RSA-SHA1")) none).oauthConfig ∧
      ((JiraClient.mk "example.com" "https" none 2
          (some (OAuthStored.mk "ck" "pk" "t" "ts" "RSA-SHA1")) none).makeRequest
          { oauth := none, auth := none }).dispatchedOptions.auth = none) ∧
    ∃ u p, (some "me" : Option String) = some u ∧ (some "pw" : Option String) = some p ∧
      (JiraClient.mk "example.com" "https" none 2 none
          (some (BasicAuthStored.mk "me" "pw"))).basic_auth = some { user := u, pass := p } ∧
      ((JiraClient.mk "example.com" "https" none 2 none
          (some (BasicAuthStored.mk "me" "pw"))).makeRequest
          { oauth := none, auth := none }).dispatchedOptions.auth =
        some { user := u, pass := p } ∧
      ((JiraClient.mk "example.com" "https" none 2 none
          (some (BasicAuthStored.mk "me" "pw"))).makeRequest
          { oauth := none, auth := none }).dispatchedOptions.oauth = none :=
  ⟨makeRequest_auth_attachment.1
      { host := some "example.com", protocol := some "https", port := none,
        oauth := some { consumer_key := some "ck", private_key := some "pk",
                        token := some "t", token_secret := some "ts",
                        signature_method := none },
        basic_auth := none }
      { consumer_key := some "ck", private_key := some "pk", token := some "t",
        token_secret := some "ts", signature_method := none }
      _ _ rfl rfl,
    makeRequest_auth_attachment.2
      { host := some "example.com", protocol := some "https", port := none,
        oauth := none,
        basic_auth := some { username := some "me", password := some "pw" } }
      { username := some "me", password := some "pw" }
      _ _ rfl rfl rfl⟩

/-- C8: a configuration with a (truthy) host, a complete `oauth` record and
any `basic_auth` record constructs successfully, stores the OAuth signing
configuration, and stores no basic-auth credentials — the `basic_auth`
fields are neither validated (the quantified `b` is arbitrary, including
missing fields) nor retained. -/
theorem construct_both_auth_oauth_wins (cfg : Config) (o : OAuthInput) (b : BasicAuthInput)
    (hh : truthy cfg.host = true) (ho : cfg.oauth = some o) (hb : cfg.basic_auth = some b)
    (h1 : truthy o.consumer_key = true) (h2 : truthy o.private_key = true)
    (h3 : truthy o.token = true) (h4 : truthy o.token_secret = true) :
    ∃ client : JiraClient, JiraClient.construct cfg = .ok client ∧
      client.oauthConfig =
        some { consumer_key := o.consumer_key.getD "", private_key := o.private_key.getD "",
               token := o.token.getD "", token_secret := o.token_secret.getD "",
               signature_method := "RSA-SHA1" } ∧
      client.basic_auth = none := by
  have h : JiraClient.construct cfg =
      .ok { host := cfg.host.getD "",
            protocol := if truthy cfg.protocol then cfg.protocol.getD "" else "https",
            port := cfg.port, version := 2,
            oauthConfig :=
              some { consumer_key := o.consumer_key.getD "",
                     private_key := o.private_key.getD "",
                     token := o.token.getD "", token_secret := o.token_secret.getD "",
                     signature_method := "RSA-SHA1" },
            basic_auth := none } := by
    unfold JiraClient.construct
    rw [hh, ho, hb]
    simp [h1, h2, h3, h4]
  exact ⟨_, h, rfl, rfl⟩

/-- Witness for C8: with both records present and the basic-auth record
entirely missing its fields, construction still succeeds on OAuth. -/
theorem construct_both_auth_oauth_wins_witness :
    ∃ client : JiraClient,
      JiraClient.construct
        { host := some "example.com", protocol := none, port := none,
          oauth := some { consumer_key := some "ck", private_key := some "pk",
                          token := some "t", token_secret := some "ts",
                          signature_method := none },
          basic_auth := some { username := none, password := none } } = .ok client ∧
      client.oauthConfig =
        some { consumer_key := (some "ck" : Option String).getD "",
               private_key := (some "pk" : Option String).getD "",
               token := (some "t" : Option String).getD "",
               token_secret := (some "ts" : Option String).getD "",
               signature_method := "RSA-SHA1" } ∧
      client.basic_auth = none :=
  construct_both_auth_oauth_wins
    { host := some "example.com", protocol := none, port := none,
      oauth := some { consumer_key := some "ck", private_key := some "pk",
                      token := some "t", token_secret := some "ts",
                      signature_method := none },
      basic_auth := some { username := none, password := none } }
    { consumer_key := some "ck", private_key := some "pk", token := some "t",
      token_secret := some "ts", signature_method := none }
    { username := none, password := none }
    (by decide) rfl rfl (by decide) (by decide) (by decide) (by decide)

/-- C10: every required field is validated by truthiness, so a field equal
to the empty string behaves exactly as if it were absent: for `host`, for
each of the four OAuth credential fields, for `username` and `password`,
construction takes the same outcome, and an empty-string `protocol` yields
the same client as an absent one (the default `"https"`). -/
theorem construct_truthiness_empty_string :
    (∀ cfg : Config, JiraClient.construct { cfg with host := some "" } =
        JiraClient.construct { cfg with host := none }) ∧
    (∀ (cfg : Config) (o : OAuthInput),
        JiraClient.construct { cfg with oauth := some { o with consumer_key := some "" } } =
          JiraClient.construct { cfg with oauth := some { o with consumer_key := none } }) ∧
    (∀ (cfg : Config) (o : OAuthInput),
        JiraClient.construct { cfg with oauth := some { o with private_key := some "" } } =
          JiraClient.construct { cfg with oauth := some { o with private_key := none } }) ∧
    (∀ (cfg : Config) (o : OAuthInput),
        JiraClient.construct { cfg with oauth := some { o with token := some "" } } =
          JiraClient.construct { cfg with oauth := some { o with token := none } }) ∧
    (∀ (cfg : Config) (o : OAuthInput),
        JiraClient.construct { cfg with oauth := some { o with token_secret := some "" } } =
          JiraClient.construct { cfg with oauth := some { o with token_secret := none } }) ∧
    (∀ (cfg : Config) (b : BasicAuthInput),
        JiraClient.construct { cfg with basic_auth := some { b with username := some "" } } =
          JiraClient.construct { cfg with basic_auth := some { b with username := none } }) ∧
    (∀ (cfg : Config) (b : BasicAuthInput),
        JiraClient.construct { cfg with basic_auth := some { b with password := some "" } } =
          JiraClient.construct { cfg with basic_auth := some { b with password := none } }) ∧
    (∀ cfg : Config, JiraClient.construct { cfg with protocol := some "" } =
        JiraClient.construct { cfg with protocol := none }) :=
  ⟨fun _ => rfl, fun _ _ => rfl, fun _ _ => rfl, fun _ _ => rfl, fun _ _ => rfl,
   fun _ _ => rfl, fun _ _ => rfl, fun _ => rfl⟩

/-! ## Lemmas about percent-decoding and formatting -/

theorem escapeQH_of_no_special :
    ∀ l : List Char, '?' ∉ l → '#' ∉ l → escapeQH l = l
  | [], _, _ => rfl
  | c :: rest, hq, hh => by
    have hc1 : ¬c = '?' := by rintro rfl; exact hq (List.mem_cons_self _ _)
    have hc2 : ¬c = '#' := by rintro rfl; exact hh (List.mem_cons_self _ _)
    have h1 : '?' ∉ rest := fun h => hq (List.mem_cons_of_mem _ h)
    have h2 : '#' ∉ rest := fun h => hh (List.mem_cons_of_mem _ h)
    simp [escapeQH, hc1, hc2, escapeQH_of_no_special rest h1 h2]

theorem percentTokens_of_no_percent :
    ∀ l : List Char, '%' ∉ l → percentTokens l = some (l.map Sum.inl)
  | [], _ => rfl
  | c :: rest, hp => by
    have hc : ¬c = '%' := by rintro rfl; exact hp (List.mem_cons_self _ _)
    have h1 : '%' ∉ rest := fun h => hp (List.mem_cons_of_mem _ h)
    unfold percentTokens
    simp [hc, percentTokens_of_no_percent rest h1]

theorem utf8Tokens_map_inl : ∀ l : List Char, utf8Tokens (l.map Sum.inl) = some l
  | [] => rfl
  | c :: rest => by
    rw [List.map_cons,
      show utf8Tokens (Sum.inl c :: rest.map Sum.inl) =
        (utf8Tokens (rest.map Sum.inl)).map (fun t => c :: t) from rfl,
      utf8Tokens_map_inl rest]
    rfl

theorem decodeURIComponent_of_no_percent (s : String) (h : '%' ∉ s.data) :
    decodeURIComponent s = some s := by
  unfold decodeURIComponent
  rw [percentTokens_of_no_percent s.data h]
  simp [utf8Tokens_map_inl]

theorem digitChar_ne_percent (n : Nat) : Nat.digitChar n ≠ '%' := by
  by_cases h16 : n < 16
  · interval_cases n <;> decide
  · unfold Nat.digitChar
    repeat rw [if_neg (by omega)]
    decide

theorem toDigitsCore_no_percent :
    ∀ (b fuel n : Nat) (acc : List Char), '%' ∉ acc → '%' ∉ Nat.toDigitsCore b fuel n acc
  | _, 0, _, _, h => h
  | b, fuel + 1, n, acc, h => by
    unfold Nat.toDigitsCore
    dsimp only
    have hd : '%' ∉ Nat.digitChar (n % b) :: acc := by
      intro hm
      rcases List.mem_cons.mp hm with h1 | h2
      · exact digitChar_ne_percent _ h1.symm
      · exact h h2
    split
    · exact hd
    · exact toDigitsCore_no_percent b fuel (n / b) _ hd

theorem natRepr_no_percent (p : Nat) : '%' ∉ (Nat.repr p).data :=
  toDigitsCore_no_percent 10 (p + 1) p [] (by simp)

theorem portSuffix_no_percent (port : Option Nat) : '%' ∉ (portSuffix port).data := by
  rcases port with _ | p
  · simp [portSuffix]
  · by_cases hz : p ≠ 0
    · rw [show portSuffix (some p) = ":" ++ Nat.repr p from by simp [portSuffix, hz],
        String.data_append]
      intro hm
      rcases List.mem_append.mp hm with h1 | h2
      · exact absurd h1 (by decide)
      · exact natRepr_no_percent p h2
    · simp [portSuffix, hz]

theorem notMemAppend {α : Type} {a : α} {l1 l2 : List α} (h1 : a ∉ l1) (h2 : a ∉ l2) :
    a ∉ l1 ++ l2 := fun h => (List.mem_append.mp h).elim h1 h2

theorem urlFormat_https_shape (hostname : String) (port : Option Nat) (pathname : String)
    (hh : ¬hostname.data = []) (hc : ':' ∉ hostname.data)
    (hpn : ¬pathname.data = []) (hph : ¬pathname.data.head? = some '/') :
    urlFormat "https" hostname port pathname =
      "https://" ++ hostname ++ portSuffix port ++ escapeQuestionHash ("/" ++ pathname) := by
  unfold urlFormat
  dsimp only
  rw [if_neg hh, if_neg hc, if_pos (by decide)]
  rcases port with _ | p
  · dsimp only
    rw [if_pos (⟨Or.inr (by decide), rfl⟩ :
        (("https" ++ ":" : String).data = [] ∨ ("https" ++ ":") ∈ slashedProtocols) ∧
          (some hostname).isSome)]
    rw [if_pos ⟨⟨Or.inr (by decide), rfl⟩, hpn, hph⟩]
    apply String.ext
    simp only [String.data_append, portSuffix, Option.getD_some, List.append_assoc,
      List.append_nil]
    rfl
  · dsimp only
    by_cases hz : p ≠ 0
    · rw [if_pos hz]
      rw [if_pos (⟨Or.inr (by decide), rfl⟩ :
          (("https" ++ ":" : String).data = [] ∨ ("https" ++ ":") ∈ slashedProtocols) ∧
            (some (hostname ++ ":" ++ Nat.repr p)).isSome)]
      rw [if_pos ⟨⟨Or.inr (by decide), rfl⟩, hpn, hph⟩]
      rw [show portSuffix (some p) = ":" ++ Nat.repr p from by simp [portSuffix, hz]]
      apply String.ext
      simp only [String.data_append, Option.getD_some, List.append_assoc]
      rfl
    · rw [if_neg hz]
      rw [if_pos (⟨Or.inr (by decide), rfl⟩ :
          (("https" ++ ":" : String).data = [] ∨ ("https" ++ ":") ∈ slashedProtocols) ∧
            (some hostname).isSome)]
      rw [if_pos ⟨⟨Or.inr (by decide), rfl⟩, hpn, hph⟩]
      rw [show portSuffix (some p) = "" from by simp [portSuffix, hz]]
      apply String.ext
      simp only [String.data_append, Option.getD_some, List.append_assoc, List.append_nil]
      rfl

/-- C2 (counterexample): on the spec's own example —
host `"example.com"`, protocol `"https"`, path `"issue/TEST-1"` —
`buildURL` returns `"https://example.com/rest/api/2issue/TEST-1"`:
`'rest/api/' + version + path` inserts no separator before the path, so the
claimed `"https://example.com/rest/api/2/issue/TEST-1"` is not produced. -/
theorem buildURL_example_missing_version_slash :
    JiraClient.buildURL
      { host := "example.com", protocol := "https", port := none, version := 2,
        oauthConfig := none, basic_auth := none } "issue/TEST-1" =
      some "https://example.com/rest/api/2issue/TEST-1" ∧
    JiraClient.buildURL
      { host := "example.com", protocol := "https", port := none, version := 2,
        oauthConfig := none, basic_auth := none } "issue/TEST-1" ≠
      some "https://example.com/rest/api/2/issue/TEST-1" := by
  constructor
  · decide
  · decide

/-- C2 (amended): for a client with protocol `"https"`, a nonempty host
containing no `:` or `%`, and a path containing no `%`, `?` or `#`,
`buildURL(path)` returns the percent-decoded URL
`<protocol>://<host>[:<port>]/rest/api/2<path>` — no separator is inserted
between the version and the path, so callers must supply a leading `/` in
the path; with the leading slash supplied, the spec's example produces
`"https://example.com/rest/api/2/issue/TEST-1"`, and percent-escapes in
the path are decoded to literal characters (`%20` becomes a space). -/
theorem buildURL_shape :
    (∀ (client : JiraClient) (path : String),
        client.protocol = "https" → client.version = 2 →
        ¬client.host.data = [] → ':' ∉ client.host.data → '%' ∉ client.host.data →
        '%' ∉ path.data → '?' ∉ path.data → '#' ∉ path.data →
        client.buildURL path =
          some ("https://" ++ client.host ++ portSuffix client.port ++
            "/rest/api/2" ++ path)) ∧
    JiraClient.buildURL
      { host := "example.com", protocol := "https", port := none, version := 2,
        oauthConfig := none, basic_auth := none } "/issue/TEST-1" =
      some "https://example.com/rest/api/2/issue/TEST-1" ∧
    JiraClient.buildURL
      { host := "example.com", protocol := "https", port := none, version := 2,
        oauthConfig := none, basic_auth := none } "/issue/TEST%20ONE" =
      some "https://example.com/rest/api/2/issue/TEST ONE" := by
  refine ⟨?_, by decide, by decide⟩
  intro client path hpr hv hh hc hhp hp1 hp2 hp3
  unfold JiraClient.buildURL
  rw [hpr, hv]
  dsimp only
  rw [show ("rest/api/" : String) ++ toString (2 : Nat) = "rest/api/2" from rfl]
  rw [urlFormat_https_shape client.host client.port ("rest/api/2" ++ path) hh hc
    (by rw [String.data_append]
        intro hE
        exact absurd (List.append_eq_nil.mp hE).1 (by decide))
    (by rw [String.data_append]
        intro hcontra
        rw [show ("rest/api/2".data ++ path.data).head? = some 'r' from rfl] at hcontra
        exact absurd hcontra (by decide))]
  have hesc : escapeQuestionHash ("/" ++ ("rest/api/2" ++ path)) =
      "/" ++ ("rest/api/2" ++ path) := by
    unfold escapeQuestionHash
    rw [escapeQH_of_no_special]
    · rw [String.data_append, String.data_append]
      exact notMemAppend (by decide) (notMemAppend (by decide) hp2)
    · rw [String.data_append, String.data_append]
      exact notMemAppend (by decide) (notMemAppend (by decide) hp3)
  rw [hesc]
  rw [decodeURIComponent_of_no_percent]
  · rw [← String.append_assoc ("/" : String) "rest/api/2" path,
      show ("/" : String) ++ "rest/api/2" = "/rest/api/2" from rfl,
      ← String.append_assoc]
  · rw [String.data_append, String.data_append, String.data_append, String.data_append,
      String.data_append]
    exact notMemAppend
      (notMemAppend (notMemAppend (by decide) hhp) (portSuffix_no_percent client.port))
      (notMemAppend (by decide) (notMemAppend (by decide) hp1))

/-- Witness for C2's amended theorem at a concrete client with a port. -/
theorem buildURL_shape_witness :
    JiraClient.buildURL
      { host := "example.com", protocol := "https", port := some 8080, version := 2,
        oauthConfig := none, basic_auth := none } "/issue/TEST-1" =
      some ("https://" ++ "example.com" ++ portSuffix (some 8080) ++
        "/rest/api/2" ++ "/issue/TEST-1") ∧
    ("https://" ++ "example.com" ++ portSuffix (some 8080) ++
        "/rest/api/2" ++ "/issue/TEST-1" : String) =
      "https://example.com:8080/rest/api/2/issue/TEST-1" :=
  ⟨buildURL_shape.1
    { host := "example.com", protocol := "https", port := some 8080, version := 2,
      oauthConfig := none, basic_auth := none } "/issue/TEST-1"
    rfl rfl (by decide) (by decide) (by decide) (by decide) (by decide) (by decide),
   by decide⟩
